import Mathlib

/-!
Verification of the Chat-Boot RAG backend against its specification.

The Python sources are shallowly embedded: Python `str` becomes `List Char`
(`Text`), fallible external collaborators (LLM, Chroma vector store,
filesystem) become explicit oracle parameters returning `Except`/enumerated
outcomes, and the service object `RAGService` becomes an explicit state
record threaded through each operation.
-/

namespace ChatBoot

/-- Python `str` is modelled as a list of characters. -/
abbrev Text := List Char

/-- ASCII whitespace, the characters Python `str.strip()` removes
(restricted to ASCII, which covers all inputs considered here). -/
def isSpaceChar (c : Char) : Bool :=
  c = ' ' || c = '\t' || c = '\n' || c = '\r' || c = '\x0b' || c = '\x0c'

/-- Python `str.strip()`: drop leading and trailing whitespace. -/
def pyStrip (t : Text) : Text :=
  ((t.dropWhile isSpaceChar).reverse.dropWhile isSpaceChar).reverse

/-- Does `pat` occur literally at the head of `l`? (Used to embed the
literal parts of the `re` patterns in `text_processing.py`.) -/
def litAt : Text → Text → Bool
  | [], _ => true
  | _ :: _, [] => false
  | p :: ps, c :: cs => p = c && litAt ps cs

/-- If `pat` occurs literally at the head of `l`, return the remainder. -/
def dropLit : Text → Text → Option Text
  | [], l => some l
  | _ :: _, [] => none
  | p :: ps, c :: cs => if p = c then dropLit ps cs else none

/-- Word characters for the regex `\w` (ASCII fragment; text is lowered
before matching, so `a`-`z` covers letters). -/
def isWordChar (c : Char) : Bool :=
  ('a' ≤ c && c ≤ 'z') || ('0' ≤ c && c ≤ '9') || c = '_'

/-- Matcher for the tail `.*?</script>` of the script pattern: scan for the
literal closing tag, where `.` may not cross a newline. -/
def closeSearch : Text → Bool
  | [] => false
  | c :: cs => litAt "</script>".data (c :: cs) || (c ≠ '\n' && closeSearch cs)

/-- Matcher for `.*?>.*?</script>`, the part of the script pattern after the
literal `<script`: some non-newline characters, then `>`, then the closing
tag reachable without crossing a newline. -/
def afterScriptOpen : Text → Bool
  | [] => false
  | c :: cs => (c = '>' && closeSearch cs) || (c ≠ '\n' && afterScriptOpen cs)

/-- The regex `<script.*?>.*?</script>` anchored at the current position. -/
def scriptAt (l : Text) : Bool :=
  match dropLit "<script".data l with
  | some rest => afterScriptOpen rest
  | none => false

/-- The regex `on\w+\s*=` anchored at the current position: literal `on`,
one or more word characters, optional whitespace, `=`.  Maximal munch is
exact here because `=` is neither a word character nor whitespace. -/
def onAt (l : Text) : Bool :=
  match dropLit "on".data l with
  | none => false
  | some r =>
    if r.takeWhile isWordChar = [] then false
    else
      match (r.dropWhile isWordChar).dropWhile isSpaceChar with
      | '=' :: _ => true
      | _ => false

/-- Any of the four suspicious patterns of `validate_input` anchored at the
current (already lowercased) position. -/
def suspiciousAt (l : Text) : Bool :=
  scriptAt l || litAt "javascript:".data l || onAt l || litAt "data:text/html".data l

/-- Does `p` hold at some suffix of `l`? (Embeds `re.search`: a match may
start at any position.) -/
def anySuffix (p : Text → Bool) : Text → Bool
  | [] => p []
  | c :: cs => p (c :: cs) || anySuffix p cs

/-- Case-insensitive search of the four injection patterns of
`validate_input` (`re.search(pattern, text, re.IGNORECASE)` over the
pattern list, folded into one boolean as the source ors the results). -/
def containsSuspicious (t : Text) : Bool :=
  anySuffix suspiciousAt (t.map Char.toLower)

/-- Embedding of `validate_input` (`utils/text_processing.py`).  The
`isinstance` guard is dropped: the embedding is typed, inputs are strings.
Note the source strips the input first and applies the length bound to the
stripped text. -/
def validate_input (text : Text) (maxLen : Nat) : Bool × Text :=
  let t := pyStrip text
  if t = [] then (false, "Input cannot be empty".data)
  else if t.length > maxLen then
    (false, ("Input too long (max " ++ toString maxLen ++ " characters)").data)
  else if containsSuspicious t then (false, "Input contains suspicious content".data)
  else (true, [])

/-- Python `filename.replace("..", "")`: remove non-overlapping occurrences
of `..` left to right. -/
def removeDotDot : Text → Text
  | [] => []
  | '.' :: '.' :: rest => removeDotDot rest
  | c :: rest => c :: removeDotDot rest

/-- Characters kept by the `re.sub(r"[^a-zA-Z0-9._-]", "_", ...)` step of
`sanitize_filename`. -/
def isAllowedFilenameChar (c : Char) : Bool :=
  ('a' ≤ c && c ≤ 'z') || ('A' ≤ c && c ≤ 'Z') || ('0' ≤ c && c ≤ '9') ||
    c = '.' || c = '_' || c = '-'

/-- The string-processing core of `sanitize_filename` applied to a string
input: remove `..`, remove path separators, replace disallowed characters
by `_`. -/
def sanitizeCore (f : Text) : Text :=
  let f1 := removeDotDot f
  let f2 := f1.filter (fun c => c ≠ '/')
  let f3 := f2.filter (fun c => c ≠ '\\')
  f3.map (fun c => if isAllowedFilenameChar c then c else '_')

/-- Embedding of `sanitize_filename` (`utils/text_processing.py`).  `none`
models a non-string Python input (the `isinstance` branch). -/
def sanitize_filename (input : Option Text) : Text :=
  match input with
  | none => "unknown_file".data
  | some f =>
    let f4 := sanitizeCore f
    if f4 = [] then "unknown_file".data else f4

/-- Does `..` occur in the text? -/
def hasDotDot : Text → Bool
  | [] => false
  | '.' :: '.' :: _ => true
  | _ :: rest => hasDotDot rest

/-- Index clamping of a Python slice bound `i` on a sequence of length `n`. -/
def pySliceIdx (n : Int) (i : Int) : Nat :=
  if i < 0 then (max 0 (n + i)).toNat else (min i n).toNat

/-- Python `t[i:j]` with possibly negative integer bounds. -/
def pySlice (t : Text) (i j : Int) : Text :=
  let n : Int := t.length
  (t.take (pySliceIdx n j)).drop (pySliceIdx n i)

/-- The `while` loop of `chunk_text`, embedded with explicit fuel: `none`
means the loop did not finish within `fuel` iterations.  `start` is an
`Int` because the source computes `end - overlap`, which goes negative in
Python. -/
def chunk_text_loop (text : Text) (csize ov : Int) :
    Nat → Int → List Text → Option (List Text)
  | 0, _, _ => none
  | fuel + 1, start, acc =>
    if start < (text.length : Int) then
      let e := min (start + csize) (text.length : Int)
      let chunk := pySlice text start e
      let acc2 := if pyStrip chunk ≠ [] then acc ++ [chunk] else acc
      let start2 := if ov > 0 then e - ov else e
      if start2 ≥ e then some acc2
      else chunk_text_loop text csize ov fuel start2 acc2
    else some acc

/-- Embedding of `chunk_text` (`utils/text_processing.py`). -/
def chunk_text (text : Text) (csize ov : Int) (fuel : Nat) : Option (List Text) :=
  if text = [] ∨ csize ≤ 0 then some []
  else chunk_text_loop text csize ov fuel 0 []

/-- The `ChatMode` enumeration of `models/chat_models.py`. -/
inductive ChatMode
  | RAG
  | LLM_ONLY
  | UNAVAILABLE
deriving DecidableEq

/-- The mutable fields of `RAGService` (`services/rag_service.py`).  The
component handles are opaque identities: `none` is an uninitialized
component, `some i` a live handle. -/
structure RAGState where
  llm : Option Nat
  embedding_model : Option Nat
  vector_db : Option Nat
  is_ready : Bool
deriving DecidableEq

/-- Embedding of `RAGService.is_available`. -/
def is_available (st : RAGState) : Bool := st.llm.isSome

/-- Embedding of `RAGService.is_rag_ready`:
`bool(self.llm and self.vector_db and self.embedding_model)`. -/
def is_rag_ready (st : RAGState) : Bool :=
  st.llm.isSome && st.vector_db.isSome && st.embedding_model.isSome

/-- A call out to one of the external components, recorded so that the
theorems can speak about which components a request touched. -/
inductive CallEvent
  | llmInvoke
  | vectorSearch
deriving DecidableEq

/-- A langchain `Document` as used by the service: page text plus the two
metadata entries the service reads (`none` models an absent key). -/
structure DocM where
  page_content : Text
  source_file : Option Text
  page : Option Text
deriving DecidableEq

/-- The `DocumentSource` dataclass of `models/chat_models.py`.  Scores are
modelled as rationals in place of Python floats. -/
structure DocumentSourceM where
  source_file : Text
  page : Text
  score : ℚ
deriving DecidableEq

/-- The `float(f"—:.4f—")` presentation rounding of a score: round to four
decimal digits. -/
def round4 (q : ℚ) : ℚ := ((round (q * 10000) : ℤ) : ℚ) / 10000

namespace ConfigM

/-- `Config.DEFAULT_K_RETRIEVAL` at its default value. -/
def DEFAULT_K_RETRIEVAL : Int := 5

/-- `Config.MAX_REBUILD_ATTEMPTS`. -/
def MAX_REBUILD_ATTEMPTS : Nat := 3

end ConfigM

/-- Result of `generate_response`: the returned pair plus the service state
after the call and the component calls made during it. -/
structure GenResult where
  answer : Text
  mode : ChatMode
  state : RAGState
  calls : List CallEvent
deriving DecidableEq

/-- The fixed apology returned when the generation call raises. -/
def apologyMsg : Text := "Sorry, an error occurred while generating the response".data

/-- The fixed message returned when the LLM handle is absent. -/
def llmUnavailableMsg : Text := "LLM not available".data

/-- Embedding of `RAGService._create_rag_prompt`: the fixed instruction
template wrapped around context and query. -/
def create_rag_prompt (query context : Text) : Text :=
  ("You are a helpful assistant with access to specific document context. Follow these guidelines:\n\n1. **PRIMARY PRIORITY**: Use the information from the provided CONTEXT below to answer the question.\n2. **SECONDARY PRIORITY**: If the context doesn't contain sufficient information, you may supplement with your general knowledge, but clearly indicate when you're doing so.\n3. **TRANSPARENCY**: Always specify your sources:\n   - For context-based info: \"According to the provided documents...\" or \"Based on the context...\"\n   - For general knowledge: \"Based on general knowledge...\" or \"Generally speaking...\"\n4. **ACCURACY**: Be factual and helpful. Don't make up specific details not found in either source.\n5. **COMPLETENESS**: Provide comprehensive answers when possible.\n\nCONTEXT FROM DOCUMENTS:\n--- start of context ---\n").data
  ++ context
  ++ "\n--- end of context ---\n\nQUESTION:\n".data
  ++ query
  ++ "\n\nHELPFUL RESPONSE (prioritizing context, supplementing with general knowledge when needed):".data

/-- The prompt and mode chosen by `generate_response`: a grounded RAG
prompt when a context string is present (`if context:`), otherwise the bare
query in LLM-only mode. -/
def selectPrompt (query context : Text) : Text × ChatMode :=
  if context ≠ [] then (create_rag_prompt query context, ChatMode.RAG)
  else (query, ChatMode.LLM_ONLY)

/-- Embedding of `RAGService.generate_response`.  `invoke` is the
`self.llm.invoke` collaborator; `Except.error` models a raised exception,
which the source catches and converts into the fixed apology. -/
def generate_response (st : RAGState) (invoke : Text → Except Text Text)
    (query context : Text) : GenResult :=
  match st.llm with
  | none => ⟨llmUnavailableMsg, ChatMode.UNAVAILABLE, st, []⟩
  | some _ =>
    match validate_input query 5000 with
    | (false, msg) => ⟨"Invalid input: ".data ++ msg, ChatMode.UNAVAILABLE, st, []⟩
    | (true, _) =>
      let pm := selectPrompt query context
      match invoke pm.1 with
      | .ok answer => ⟨pyStrip answer, pm.2, st, [CallEvent.llmInvoke]⟩
      | .error _ => ⟨apologyMsg, ChatMode.UNAVAILABLE, st, [CallEvent.llmInvoke]⟩

/-- Result of `search_similar_documents`: the returned pair plus the
component calls made. -/
structure SearchResult where
  context : Text
  sources : List DocumentSourceM
  calls : List CallEvent
deriving DecidableEq

/-- The chunk-separator used when concatenating retrieved chunk texts. -/
def chunkSep : Text := "\n\n---\n\n".data

/-- Python `sep.join(parts)`. -/
def joinSep (sep : Text) : List Text → Text
  | [] => []
  | [p] => p
  | p :: ps => p ++ sep ++ joinSep sep ps

/-- Embedding of `RAGService.search_similar_documents`.  `search` is the
`vector_db.similarity_search_with_score` collaborator, returning scored
documents in the backend's ranking order. -/
def search_similar_documents (st : RAGState) (search : Text → Int → List (DocM × ℚ))
    (query : Text) (k : Option Int) : SearchResult :=
  match st.vector_db with
  | none => ⟨[], [], []⟩
  | some _ =>
    let kv := k.getD ConfigM.DEFAULT_K_RETRIEVAL
    match validate_input query 5000 with
    | (false, _) => ⟨[], [], []⟩
    | (true, _) =>
      let similar := search query kv
      if similar = [] then ⟨[], [], [CallEvent.vectorSearch]⟩
      else
        let contents := similar.map (fun p => p.1.page_content)
        let sources := similar.map (fun p =>
          DocumentSourceM.mk (p.1.source_file.getD "Unknown".data)
            (p.1.page.getD "N/A".data) (round4 p.2))
        ⟨joinSep chunkSep contents, sources, [CallEvent.vectorSearch]⟩

/-- Outcome of one attempt to erase the persisted index directory's
contents: success, a `PermissionError`, or another exception. -/
inductive EraseOutcome
  | ok
  | permErr
  | otherErr
deriving DecidableEq

/-- Log events emitted by the rebuild path, so the theorems can speak about
what was logged. -/
inductive LogEvent
  | cleanAttemptFailed (attempt : Nat)
  | cleanFailedFinal
  | cleanUnexpectedError
  | rebuildFailed
deriving DecidableEq

/-- The retry loop of `RAGService._clean_vector_store_directory`:
`for attempt in range(MAX_REBUILD_ATTEMPTS)` with a fixed sleep between
permission-denied attempts (the sleep itself has no observable effect
here).  Returns the emitted log events. -/
def clean_loop (erase : Nat → EraseOutcome) : Nat → Nat → List LogEvent → List LogEvent
  | _, 0, logs => logs
  | attempt, remaining + 1, logs =>
    match erase attempt with
    | .ok => logs
    | .permErr =>
      let logs2 := logs ++ [LogEvent.cleanAttemptFailed (attempt + 1)]
      if attempt < ConfigM.MAX_REBUILD_ATTEMPTS - 1 then
        clean_loop erase (attempt + 1) remaining logs2
      else logs2 ++ [LogEvent.cleanFailedFinal]
    | .otherErr => logs ++ [LogEvent.cleanUnexpectedError]

/-- Embedding of `RAGService._clean_vector_store_directory`.  All failure
outcomes are logged and swallowed; the function always returns. -/
def clean_vector_store_directory (dirExists : Bool) (erase : Nat → EraseOutcome) :
    List LogEvent :=
  if !dirExists then [] else clean_loop erase 0 ConfigM.MAX_REBUILD_ATTEMPTS []

/-- Embedding of `RAGService._rebuild_vector_store`.  `build` is the
`Chroma.from_documents` collaborator: `Except.error` models a raised
exception there, which the source catches and turns into a `False` return.
The in-memory handle is released before cleaning, exactly as in the
source. -/
def rebuild_vector_store (st : RAGState) (dirExists : Bool)
    (erase : Nat → EraseOutcome) (chunks : List DocM)
    (build : List DocM → Except Text Nat) : RAGState × Bool × List LogEvent :=
  let st1 := if st.vector_db.isSome then { st with vector_db := none } else st
  let logs := clean_vector_store_directory dirExists erase
  match build chunks with
  | .ok dbId => ({ st1 with vector_db := some dbId }, true, logs)
  | .error _ => (st1, false, logs ++ [LogEvent.rebuildFailed])

/-- Observable state of the persisted index store for the staleness check:
whether the persist directory exists, whether it is empty, and what loading
the persisted store yields — `Except.error` models any exception while
loading or counting, `Except.ok (cnt, dbId)` a loaded handle `dbId` whose
collection reports `cnt` chunks. -/
structure StoreEnv where
  dirExists : Bool
  dirEmpty : Bool
  load : Except Text (Nat × Nat)

/-- Embedding of `RAGService._check_vector_store_rebuild`: returns the
rebuild decision and the updated service state (the loaded store is kept
in `vector_db` exactly when no rebuild is needed). -/
def check_vector_store_rebuild (env : StoreEnv) (chunks : List DocM)
    (st : RAGState) : Bool × RAGState :=
  if !env.dirExists then (true, st)
  else if env.dirEmpty then (true, st)
  else
    match env.load with
    | .error _ => (true, st)
    | .ok (existing_count, dbId) =>
      if existing_count ≠ chunks.length then (true, st)
      else (false, { st with vector_db := some dbId })

/-- Result of `initialize_system` (`app.py`): the boolean return value and
the `system_ready` / `initialization_error` globals after the call, on a
run that starts from the module-level values (`False`, `None`). -/
structure InitResult where
  success : Bool
  system_ready : Bool
  init_error : Option Text
deriving DecidableEq

/-- Embedding of `initialize_system` (`app.py`).  Each step's outcome is an
oracle: `cfg` is `Config.validate()` (`some` an error string), the rest are
the `(success, error)` pairs of the corresponding service calls, collapsed
to `Except`. -/
def system_init (cfg : Option Text) (llm docs chunks embed vector : Except Text Unit) :
    InitResult :=
  match cfg with
  | some e => ⟨false, false, some e⟩
  | none =>
    match llm with
    | .error e => ⟨false, false, some ("LLM initialization failed: ".data ++ e)⟩
    | .ok _ =>
      match docs with
      | .error _ => ⟨true, true, none⟩
      | .ok _ =>
        match chunks with
        | .error _ => ⟨true, true, none⟩
        | .ok _ =>
          match embed with
          | .error _ => ⟨true, true, none⟩
          | .ok _ =>
            match vector with
            | .error _ => ⟨true, true, none⟩
            | .ok _ => ⟨true, true, none⟩

/-- A chat-endpoint outcome: an HTTP error response or a chat response. -/
structure ChatResponseM where
  question : Text
  response : Text
  context_info : Text
  sources : List DocumentSourceM
  mode : ChatMode
deriving DecidableEq

/-- Result of the chat endpoint: error (with HTTP status) or response. -/
inductive ApiResult
  | err (code : Nat) (msg : Text)
  | ok (r : ChatResponseM)
deriving DecidableEq

/-- The mode of a successful chat response, if any. -/
def apiMode : ApiResult → Option ChatMode
  | .err _ _ => none
  | .ok r => some r.mode

/-- The sources of a successful chat response ([] for an error). -/
def apiSources : ApiResult → List DocumentSourceM
  | .err _ _ => []
  | .ok r => r.sources

/-- Embedding of the mode-dispatch core of `api_chat` (`app.py`), after
JSON parsing: readiness gate, retrieval on the RAG-ready path, fallback to
generation without context when no context was found, LLM-only path
otherwise. -/
def api_chat (system_ready : Bool) (st : RAGState)
    (search : Text → Int → List (DocM × ℚ)) (invoke : Text → Except Text Text)
    (message : Text) (k_context : Option Int) :
    ApiResult × RAGState × List CallEvent :=
  if !system_ready || !is_available st then
    (ApiResult.err 503 "System unavailable".data, st, [])
  else
    let k := k_context.getD ConfigM.DEFAULT_K_RETRIEVAL
    if is_rag_ready st then
      let sr := search_similar_documents st search message (some k)
      if sr.context ≠ [] then
        let g := generate_response st invoke message sr.context
        (ApiResult.ok ⟨message, g.answer,
            ("Used " ++ toString sr.sources.length ++ " document sources").data,
            sr.sources, g.mode⟩, g.state, sr.calls ++ g.calls)
      else
        let g := generate_response st invoke message []
        (ApiResult.ok ⟨message, g.answer,
            "No relevant documents found, using LLM-only mode".data,
            [], g.mode⟩, g.state, sr.calls ++ g.calls)
    else
      let g := generate_response st invoke message []
      (ApiResult.ok ⟨message, g.answer,
          "LLM-only mode (no documents available)".data,
          [], g.mode⟩, g.state, g.calls)

/-! Concrete fixtures used by the witness theorems. -/

/-- A fully initialized service state. -/
def stFull : RAGState := ⟨some 0, some 0, some 0, true⟩

/-- A state whose LLM handle is absent (embedder and store live). -/
def stNoLLM : RAGState := ⟨none, some 0, some 0, true⟩

/-- A generator oracle that always raises. -/
def invokeFail : Text → Except Text Text := fun _ => Except.error "boom".data

/-- A generator oracle that always answers (with surrounding whitespace,
so trimming is observable). -/
def invokeOk : Text → Except Text Text := fun _ => Except.ok " ok ".data

/-- A similarity-search oracle that finds nothing. -/
def searchEmpty : Text → Int → List (DocM × ℚ) := fun _ _ => []

/-- A retrieved document with full metadata. -/
def doc1 : DocM := ⟨"alpha".data, some "f.pdf".data, some "1".data⟩

/-- A retrieved document with missing metadata. -/
def doc2 : DocM := ⟨"beta".data, none, none⟩

/-- A similarity-search oracle returning two ranked documents. -/
def searchTwo : Text → Int → List (DocM × ℚ) := fun _ _ => [(doc1, 2), (doc2, 1)]

/-- A directory-erasure oracle that hits a `PermissionError` on every
attempt. -/
def eraseAlwaysPerm : Nat → EraseOutcome := fun _ => EraseOutcome.permErr

/-- A store-build oracle that succeeds with handle 7. -/
def buildOk7 : List DocM → Except Text Nat := fun _ => Except.ok 7

/-- A store-build oracle that raises. -/
def buildFail : List DocM → Except Text Nat := fun _ => Except.error "locked".data

/-- A 6000-character query: 5000 `a`s followed by 1000 spaces. -/
def query6000 : Text := List.replicate 5000 'a' ++ List.replicate 1000 ' '

/-!  Theorems.  -/

/-- C1: for every query that reaches the generation call (LLM handle
present, validation passed), if the generator call raises then
`generate_response` returns the fixed apology string with mode
UNAVAILABLE, and the returned service state — all component handles and
the readiness flag — is the input state unchanged.  The embedding is a
total function, so the exception cannot propagate past this boundary. -/
theorem generator_exception_yields_apology (st : RAGState)
    (invoke : Text → Except Text Text) (query context : Text) (l : Nat) (e : Text)
    (hllm : st.llm = some l)
    (hval : (validate_input query 5000).1 = true)
    (hinv : invoke (selectPrompt query context).1 = Except.error e) :
    generate_response st invoke query context =
      ⟨apologyMsg, ChatMode.UNAVAILABLE, st, [CallEvent.llmInvoke]⟩ := by
  unfold generate_response
  rw [hllm]
  rcases h : validate_input query 5000 with ⟨b, m⟩
  rw [h] at hval
  subst hval
  simp only []
  rw [hinv]

/-- Witness for C1 at a concrete state, query and failing generator. -/
theorem generator_exception_yields_apology_witness :
    generate_response stFull invokeFail "hi".data [] =
      ⟨apologyMsg, ChatMode.UNAVAILABLE, stFull, [CallEvent.llmInvoke]⟩ :=
  generator_exception_yields_apology stFull invokeFail "hi".data [] 0 "boom".data
    rfl (by decide) rfl

/-- C2: whenever the LLM handle is `none`, `generate_response` reports mode
UNAVAILABLE with the fixed unavailable-message, makes no component call and
leaves the state unchanged, for every state of the embedder and store; and
the chat endpoint rejects the request (HTTP 503) with no sources and no
component calls. -/
theorem generator_unavailable_mode (st : RAGState)
    (search : Text → Int → List (DocM × ℚ)) (invoke : Text → Except Text Text)
    (query context : Text) (k : Option Int) (sysReady : Bool)
    (h : st.llm = none) :
    generate_response st invoke query context =
      ⟨llmUnavailableMsg, ChatMode.UNAVAILABLE, st, []⟩ ∧
    api_chat sysReady st search invoke query k =
      (ApiResult.err 503 "System unavailable".data, st, []) := by
  constructor
  · unfold generate_response
    rw [h]
  · unfold api_chat
    have hav : is_available st = false := by simp [is_available, h]
    rw [hav]
    simp

/-- Witness for C2 at a concrete LLM-less state. -/
theorem generator_unavailable_mode_witness :
    generate_response stNoLLM invokeOk "hi".data [] =
      ⟨llmUnavailableMsg, ChatMode.UNAVAILABLE, stNoLLM, []⟩ :=
  (generator_unavailable_mode stNoLLM searchEmpty invokeOk "hi".data [] none true rfl).1

/-- C3: the outcome of system initialization is fully determined by the
configuration check and the LLM step: the system-usable flag becomes true
exactly when the LLM (generator) step runs and succeeds, an LLM failure
makes the whole initialization report failure with the diagnostic string
retained, and the document / chunking / embedding / vector-store outcomes
never affect success (soft failures). -/
theorem system_usable_iff_llm_init (cfg : Option Text)
    (llm docs chunks embed vector : Except Text Unit) :
    system_init cfg llm docs chunks embed vector =
      (match cfg, llm with
       | some e, _ => ⟨false, false, some e⟩
       | none, .error e => ⟨false, false, some ("LLM initialization failed: ".data ++ e)⟩
       | none, .ok _ => ⟨true, true, none⟩) ∧
    ((system_init cfg llm docs chunks embed vector).system_ready = true ↔
      cfg = none ∧ ∃ u, llm = Except.ok u) := by
  cases cfg <;> cases llm <;> cases docs <;> cases chunks <;> cases embed <;>
    cases vector <;> simp [system_init]

/-- C4 counterexample: on the FULL path with zero retrieved chunks, if the
fallback generation call itself raises, the reported mode is UNAVAILABLE,
not GENERATOR_ONLY (LLM_ONLY) as the claim states. -/
theorem full_path_zero_chunks_mode_not_generator_only :
    apiMode (api_chat true stFull searchEmpty invokeFail "hi".data (some 3)).1 =
      some ChatMode.UNAVAILABLE ∧
    apiMode (api_chat true stFull searchEmpty invokeFail "hi".data (some 3)).1 ≠
      some ChatMode.LLM_ONLY := by decide

/-- C4 (amended): on the FULL path, if similarity search returns zero
chunks and the fallback generation call succeeds, the same request falls
back to generation without context: the reported mode is LLM_ONLY
(GENERATOR_ONLY), the sources list is empty, the context note says no
relevant documents were found, the state is returned unchanged, and the
global RAG readiness still holds afterwards, so subsequent queries take
the FULL path. -/
theorem full_path_zero_chunks_falls_back (st : RAGState)
    (search : Text → Int → List (DocM × ℚ)) (invoke : Text → Except Text Text)
    (message : Text) (k : Option Int) (ans : Text)
    (hready : is_rag_ready st = true)
    (hval : (validate_input message 5000).1 = true)
    (hsearch : search message (k.getD ConfigM.DEFAULT_K_RETRIEVAL) = [])
    (hinv : invoke message = Except.ok ans) :
    api_chat true st search invoke message k =
      (ApiResult.ok ⟨message, pyStrip ans,
          "No relevant documents found, using LLM-only mode".data,
          [], ChatMode.LLM_ONLY⟩,
        st, [CallEvent.vectorSearch, CallEvent.llmInvoke]) ∧
    is_rag_ready (api_chat true st search invoke message k).2.1 = true := by
  have hr := hready
  unfold is_rag_ready at hr
  rw [Bool.and_eq_true, Bool.and_eq_true] at hr
  obtain ⟨⟨hl, hv⟩, he⟩ := hr
  obtain ⟨l, hl'⟩ := Option.isSome_iff_exists.mp hl
  obtain ⟨v, hv'⟩ := Option.isSome_iff_exists.mp hv
  have hsr : search_similar_documents st search message
      (some (k.getD ConfigM.DEFAULT_K_RETRIEVAL)) =
      ⟨[], [], [CallEvent.vectorSearch]⟩ := by
    unfold search_similar_documents
    rw [hv']
    rcases hvv : validate_input message 5000 with ⟨b, m⟩
    rw [hvv] at hval
    subst hval
    simp only [Option.getD_some]
    rw [hsearch]
    simp
  have hg : generate_response st invoke message [] =
      ⟨pyStrip ans, ChatMode.LLM_ONLY, st, [CallEvent.llmInvoke]⟩ := by
    unfold generate_response
    rw [hl']
    rcases hvv : validate_input message 5000 with ⟨b, m⟩
    rw [hvv] at hval
    subst hval
    simp only [selectPrompt, ne_eq, not_true_eq_false, if_false]
    rw [hinv]
  have hmain : api_chat true st search invoke message k =
      (ApiResult.ok ⟨message, pyStrip ans,
          "No relevant documents found, using LLM-only mode".data,
          [], ChatMode.LLM_ONLY⟩,
        st, [CallEvent.vectorSearch, CallEvent.llmInvoke]) := by
    unfold api_chat
    have hav : is_available st = true := by simp [is_available, hl']
    rw [hav, hready]
    simp only [Bool.not_true, Bool.or_false, Bool.false_or, if_false, if_true]
    rw [hsr, hg]
    simp
  refine ⟨hmain, ?_⟩
  rw [hmain]
  exact hready

/-- Witness for the amended C4 at a concrete ready state with an empty
search result and a succeeding generator. -/
theorem full_path_zero_chunks_falls_back_witness :
    api_chat true stFull searchEmpty invokeOk "hi".data none =
      (ApiResult.ok ⟨"hi".data, pyStrip " ok ".data,
          "No relevant documents found, using LLM-only mode".data,
          [], ChatMode.LLM_ONLY⟩,
        stFull, [CallEvent.vectorSearch, CallEvent.llmInvoke]) :=
  (full_path_zero_chunks_falls_back stFull searchEmpty invokeOk "hi".data none
    " ok ".data rfl (by decide) rfl rfl).1

/-- C5 counterexample: when directory erasure fails with a
`PermissionError` on every retry attempt but the subsequent fresh build
succeeds, the rebuild reports success and the store handle is set — the
Index Store does not remain uninitialized, contrary to the claim. -/
theorem rebuild_succeeds_despite_erase_failures :
    (rebuild_vector_store stFull true eraseAlwaysPerm [] buildOk7).1.vector_db = some 7 ∧
    (rebuild_vector_store stFull true eraseAlwaysPerm [] buildOk7).2.1 = true := by
  decide

/-- C5 (amended): if directory erasure fails on every retry attempt, the
final failure is logged and no exception escapes (the rebuild is a total
function), but erasure failure alone does not abort the rebuild: a fresh
build is still attempted.  Only when that build also fails does the
rebuild report failure, the store handle stay `none`, and RAG readiness —
hence the FULL path — become unavailable, leaving generation-only
service. -/
theorem rebuild_erase_and_build_failure (st : RAGState)
    (erase : Nat → EraseOutcome) (chunks : List DocM)
    (build : List DocM → Except Text Nat) (e : Text)
    (herase : ∀ n, erase n = EraseOutcome.permErr)
    (hbuild : build chunks = Except.error e) :
    (rebuild_vector_store st true erase chunks build).2.1 = false ∧
    (rebuild_vector_store st true erase chunks build).1.vector_db = none ∧
    LogEvent.cleanFailedFinal ∈ (rebuild_vector_store st true erase chunks build).2.2 ∧
    is_rag_ready (rebuild_vector_store st true erase chunks build).1 = false := by
  have hlogs : clean_vector_store_directory true erase =
      [LogEvent.cleanAttemptFailed 1, LogEvent.cleanAttemptFailed 2,
        LogEvent.cleanAttemptFailed 3, LogEvent.cleanFailedFinal] := by
    simp [clean_vector_store_directory, clean_loop, herase,
      ConfigM.MAX_REBUILD_ATTEMPTS]
  unfold rebuild_vector_store
  rw [hbuild, hlogs]
  cases hdb : st.vector_db <;>
    simp [is_rag_ready, hdb]

/-- Witness for the amended C5 at a concrete state with all-failing
erasure and a failing build. -/
theorem rebuild_erase_and_build_failure_witness :
    (rebuild_vector_store stFull true eraseAlwaysPerm [] buildFail).1.vector_db = none :=
  (rebuild_erase_and_build_failure stFull eraseAlwaysPerm [] buildFail "locked".data
    (fun _ => rfl) rfl).2.1

/-- C6: the staleness check decides rebuild exactly when the persisted
directory is missing, or empty, or loading raises, or the stored chunk
count differs from the current chunk count; when it reports fresh the
loaded handle is kept in `vector_db` and the state is otherwise unchanged.
The decision does not depend on the service state at all, so running the
check twice in a row with no corpus or directory change — in particular on
the state a fresh first run produced — yields fresh again, with no
redundant rebuild. -/
theorem staleness_check_characterization (env : StoreEnv) (chunks : List DocM)
    (st : RAGState) :
    check_vector_store_rebuild env chunks st =
      ((!env.dirExists || env.dirEmpty ||
          (match env.load with
           | .error _ => true
           | .ok (c, _) => c != chunks.length)),
        (match env.load with
         | .error _ => st
         | .ok (c, d) =>
           if !env.dirExists || env.dirEmpty || c != chunks.length then st
           else { st with vector_db := some d })) ∧
    (∀ st2 : RAGState, (check_vector_store_rebuild env chunks st2).1 =
        (check_vector_store_rebuild env chunks st).1) := by
  obtain ⟨de, dem, load⟩ := env
  have key : ∀ st2 : RAGState,
      check_vector_store_rebuild ⟨de, dem, load⟩ chunks st2 =
        ((!de || dem ||
            (match load with
             | .error _ => true
             | .ok (c, _) => c != chunks.length)),
          (match load with
           | .error _ => st2
           | .ok (c, d) =>
             if !de || dem || c != chunks.length then st2
             else { st2 with vector_db := some d })) := by
    intro st2
    rcases load with e | ⟨c, d⟩
    · cases de <;> cases dem <;> simp [check_vector_store_rebuild]
    · cases de <;> cases dem <;> by_cases hc : c = chunks.length <;>
        simp [check_vector_store_rebuild, hc]
  refine ⟨key st, ?_⟩
  intro st2
  rw [key st2, key st]

/-- None of the four injection patterns can match at a position holding the
letter `a`. -/
theorem suspiciousAt_cons_a (rest : Text) : suspiciousAt ('a' :: rest) = false := rfl

/-- A text consisting solely of the letter `a` matches no injection
pattern. -/
theorem anySuffix_suspicious_replicate_a (n : Nat) :
    anySuffix suspiciousAt (List.replicate n 'a') = false := by
  induction n with
  | zero => rfl
  | succ k ih =>
    rw [List.replicate_succ]
    simp [anySuffix, suspiciousAt_cons_a, ih]

/-- Dropping leading whitespace skips over a block of spaces. -/
theorem dropWhile_space_spaces (n : Nat) (rest : Text) :
    List.dropWhile isSpaceChar (List.replicate n ' ' ++ rest) =
      List.dropWhile isSpaceChar rest := by
  induction n with
  | zero => simp
  | succ k ih =>
    rw [List.replicate_succ, List.cons_append, List.dropWhile_cons]
    simp [isSpaceChar, ih]

/-- Dropping leading whitespace stops at a letter. -/
theorem dropWhile_space_replicate_a (n : Nat) (rest : Text) :
    List.dropWhile isSpaceChar (List.replicate (n + 1) 'a' ++ rest) =
      List.replicate (n + 1) 'a' ++ rest := by
  rw [List.replicate_succ, List.cons_append, List.dropWhile_cons]
  simp [isSpaceChar]

/-- Python `strip` on the 6000-character fixture: the 1000 trailing spaces
are removed, leaving the 5000 `a`s. -/
theorem pyStrip_query6000 : pyStrip query6000 = List.replicate 5000 'a' := by
  unfold query6000 pyStrip
  rw [show (5000 : Nat) = 4999 + 1 from rfl]
  rw [dropWhile_space_replicate_a, List.reverse_append, List.reverse_replicate,
    List.reverse_replicate, dropWhile_space_spaces]
  have h2 : List.dropWhile isSpaceChar (List.replicate (4999 + 1) 'a') =
      List.replicate (4999 + 1) 'a' := by
    have h3 := dropWhile_space_replicate_a 4999 []
    rw [List.append_nil] at h3
    exact h3
  rw [h2, List.reverse_replicate]

/-- The 6000-character fixture passes validation: the length bound is
applied to the stripped text, which is exactly 5000 characters. -/
theorem validate_accepts_query6000 : validate_input query6000 5000 = (true, []) := by
  simp only [validate_input]
  rw [pyStrip_query6000]
  have hsus : containsSuspicious (List.replicate 5000 'a') = false := by
    unfold containsSuspicious
    rw [List.map_replicate, show Char.toLower 'a' = 'a' from rfl]
    exact anySuffix_suspicious_replicate_a 5000
  have hne : List.replicate 5000 'a' ≠ ([] : Text) := by
    intro h
    have h5 := congrArg List.length h
    rw [List.length_replicate, List.length_nil] at h5
    exact absurd h5 (by norm_num)
  have hlen : ¬ (List.replicate 5000 'a').length > 5000 := by
    rw [List.length_replicate]
    omega
  rw [if_neg hne, if_neg hlen, if_neg (by rw [hsus]; exact Bool.false_ne_true)]

/-- C7 counterexample, refuting the claim's two failing clauses.  First, a
raw input of 6000 characters — over the 5000-character maximum — is
accepted by validation, because the length bound is checked on the
stripped text.  Second, there is no distinct error code separating a
validation failure from a generator failure: a denylisted query (a
validation failure — the generator is never called) and a valid query
whose generation call raises (a generator failure — the generator was
called) are both reported with the very same mode UNAVAILABLE; only the
returned message text differs. -/
theorem overlong_accepted_and_no_distinct_error_code :
    (validate_input query6000 5000 = (true, []) ∧ query6000.length = 6000) ∧
    ((generate_response stFull invokeFail "<script>x</script>".data []).mode =
        ChatMode.UNAVAILABLE ∧
      (generate_response stFull invokeFail "<script>x</script>".data []).calls = [] ∧
      (generate_response stFull invokeFail "hi".data []).mode =
        ChatMode.UNAVAILABLE ∧
      (generate_response stFull invokeFail "hi".data []).calls =
        [CallEvent.llmInvoke]) := by
  refine ⟨⟨validate_accepts_query6000, ?_⟩, by decide, by decide, by decide, by decide⟩
  unfold query6000
  rw [List.length_append, List.length_replicate, List.length_replicate]

/-- The validation verdict is `false` exactly for inputs that strip to
empty, strip to more than the maximum length, or contain a denylisted
pattern. -/
theorem validate_input_false_iff (query : Text) (m : Nat) :
    (validate_input query m).1 = false ↔
      (pyStrip query = [] ∨ (pyStrip query).length > m ∨
        containsSuspicious (pyStrip query) = true) := by
  simp only [validate_input]
  split_ifs with h1 h2 h3 <;> simp_all

/-- C7 (amended): validation rejects exactly the empty/whitespace-only
inputs, the inputs whose stripped length exceeds the 5000-character
maximum, and the inputs matching the case-insensitive injection denylist
(the raw length may exceed the maximum when trailing whitespace is later
stripped).  A validation failure short-circuits: no generator call and no
retrieval call is made, and the state is unchanged.  There is no distinct
error code separating it from a generator failure — both carry the same
mode UNAVAILABLE — a validation failure is distinguishable only by its
returned message, the `Invalid input:` text, which is never the
generator-failure apology. -/
theorem validation_failure_short_circuits (query context : Text) (st : RAGState)
    (invoke : Text → Except Text Text) (search : Text → Int → List (DocM × ℚ))
    (k : Option Int)
    (hval : (validate_input query 5000).1 = false) :
    ((validate_input query 5000).1 = false ↔
      (pyStrip query = [] ∨ (pyStrip query).length > 5000 ∨
        containsSuspicious (pyStrip query) = true)) ∧
    (generate_response st invoke query context).calls = [] ∧
    (generate_response st invoke query context).answer ≠ apologyMsg ∧
    (∀ l : Nat, st.llm = some l →
      generate_response st invoke query context =
        ⟨"Invalid input: ".data ++ (validate_input query 5000).2,
          ChatMode.UNAVAILABLE, st, []⟩) ∧
    (search_similar_documents st search query k).calls = [] ∧
    (search_similar_documents st search query k).sources = [] := by
  have hg : ∀ l : Nat, st.llm = some l →
      generate_response st invoke query context =
        ⟨"Invalid input: ".data ++ (validate_input query 5000).2,
          ChatMode.UNAVAILABLE, st, []⟩ := by
    intro l hl
    unfold generate_response
    rw [hl]
    rcases hvv : validate_input query 5000 with ⟨b, m⟩
    rw [hvv] at hval
    subst hval
    rfl
  have hs : (search_similar_documents st search query k).calls = [] ∧
      (search_similar_documents st search query k).sources = [] := by
    unfold search_similar_documents
    cases hdb : st.vector_db with
    | none => exact ⟨rfl, rfl⟩
    | some v =>
      rcases hvv : validate_input query 5000 with ⟨b, m⟩
      rw [hvv] at hval
      subst hval
      exact ⟨rfl, rfl⟩
  refine ⟨validate_input_false_iff query 5000, ?_, ?_, hg, hs.1, hs.2⟩
  · cases hl : st.llm with
    | none => unfold generate_response; rw [hl]
    | some l => rw [hg l hl]
  · cases hl : st.llm with
    | none =>
      unfold generate_response
      rw [hl]
      intro hcontra
      have : llmUnavailableMsg = apologyMsg := hcontra
      simp [llmUnavailableMsg, apologyMsg] at this
    | some l =>
      rw [hg l hl]
      intro hcontra
      have h2 : ('I' :: ("nvalid input: ".data ++ (validate_input query 5000).2)) =
          apologyMsg := hcontra
      simp [apologyMsg] at h2

/-- Witness for the amended C7 at a concrete denylisted query. -/
theorem validation_failure_short_circuits_witness :
    (generate_response stFull invokeFail "<script>x</script>".data []).calls = [] :=
  (validation_failure_short_circuits "<script>x</script>".data [] stFull invokeFail
    searchEmpty none (by decide)).2.1

/-- Presentation rounding to four decimal digits is monotone, so it
preserves the backend's ranking order. -/
theorem round4_mono {a b : ℚ} (h : a ≤ b) : round4 a ≤ round4 b := by
  unfold round4
  have h1 : a * 10000 ≤ b * 10000 :=
    mul_le_mul_of_nonneg_right h (by norm_num)
  have h2 : round (a * 10000) ≤ round (b * 10000) := by
    rw [round_eq, round_eq]
    exact Int.floor_mono (by linarith)
  have h3 : ((round (a * 10000) : ℤ) : ℚ) ≤ ((round (b * 10000) : ℤ) : ℚ) := by
    exact_mod_cast h2
  exact div_le_div_of_nonneg_right h3 (by norm_num)

/-- C8: on the FULL path with a valid query, given the backend contract of
§6 — `similarity_search_with_score` returns at most `k` results in
non-increasing score order — the returned source list preserves the
backend's full-precision ranking order exactly, has at most `k` entries,
remains sorted under non-increasing score, and each reported score is the
four-decimal presentation rounding of the backend's full-precision
score. -/
theorem search_results_bounded_sorted_rounded (st : RAGState)
    (search : Text → Int → List (DocM × ℚ)) (query : Text) (k : Option Int) (v : Nat)
    (hdb : st.vector_db = some v)
    (hval : (validate_input query 5000).1 = true)
    (hlen : (search query (k.getD ConfigM.DEFAULT_K_RETRIEVAL)).length ≤
        (k.getD ConfigM.DEFAULT_K_RETRIEVAL).toNat)
    (hsort : List.Chain' (fun a b => b ≤ a)
        ((search query (k.getD ConfigM.DEFAULT_K_RETRIEVAL)).map (fun p => p.2))) :
    (search_similar_documents st search query k).sources =
      (search query (k.getD ConfigM.DEFAULT_K_RETRIEVAL)).map (fun p =>
        DocumentSourceM.mk (p.1.source_file.getD "Unknown".data)
          (p.1.page.getD "N/A".data) (round4 p.2)) ∧
    (search_similar_documents st search query k).sources.length ≤
      (k.getD ConfigM.DEFAULT_K_RETRIEVAL).toNat ∧
    List.Chain' (fun a b => b ≤ a)
      ((search_similar_documents st search query k).sources.map (fun s => s.score)) := by
  have hmap : (search_similar_documents st search query k).sources =
      (search query (k.getD ConfigM.DEFAULT_K_RETRIEVAL)).map (fun p =>
        DocumentSourceM.mk (p.1.source_file.getD "Unknown".data)
          (p.1.page.getD "N/A".data) (round4 p.2)) := by
    unfold search_similar_documents
    rw [hdb]
    rcases hvv : validate_input query 5000 with ⟨b, m⟩
    rw [hvv] at hval
    subst hval
    simp only [Option.getD_some]
    by_cases hemp : search query (k.getD ConfigM.DEFAULT_K_RETRIEVAL) = []
    · rw [hemp]
      simp
    · simp only [hemp, if_neg hemp, if_false]
  refine ⟨hmap, ?_, ?_⟩
  · rw [hmap, List.length_map]
    exact hlen
  · rw [hmap, List.map_map, List.chain'_map]
    rw [List.chain'_map] at hsort
    exact hsort.imp (fun a b h => round4_mono h)

/-- Witness for C8 at a concrete two-result backend. -/
theorem search_results_bounded_sorted_rounded_witness :
    (search_similar_documents stFull searchTwo "hi".data none).sources.length ≤
      (ConfigM.DEFAULT_K_RETRIEVAL).toNat :=
  (search_results_bounded_sorted_rounded stFull searchTwo "hi".data none 0
    rfl (by decide) (by decide)
    (by norm_num [searchTwo, doc1, doc2, List.chain'_cons])).2.1

/-- With a positive overlap, the `while` loop of `chunk_text` never
finishes: the updated position `end - overlap` is always strictly below
both `end` (so the `start >= end` break never fires) and `len(text)` (so
the loop guard always holds), for any amount of fuel. -/
theorem chunk_text_loop_none (text : Text) (csize ov : Int) (hov : 0 < ov) :
    ∀ fuel : Nat, ∀ start : Int, ∀ acc : List Text,
      start < (text.length : Int) →
      chunk_text_loop text csize ov fuel start acc = none := by
  intro fuel
  induction fuel with
  | zero => intro start acc _; rfl
  | succ n ih =>
    intro start acc h
    rw [chunk_text_loop.eq_def]
    simp only [h, if_true, if_pos hov]
    have hmin : min (start + csize) ((text.length : Int)) ≤ (text.length : Int) :=
      min_le_right _ _
    have hbr : ¬ (min (start + csize) ((text.length : Int)) - ov ≥
        min (start + csize) ((text.length : Int))) := by omega
    rw [if_neg hbr]
    exact ih _ _ (by omega)

/-- C9 (code bug): for every non-empty input, positive chunk size and
positive overlap, `chunk_text` does not terminate — despite the source's
own `Prevent infinite loop` guard, which compares the new position with
`end` and can never fire because the new position is `end - overlap`.
Once the window reaches the end of the text, the loop repeats forever
with an unchanged position, appending the same final chunk each time. -/
theorem chunk_text_diverges_for_positive_overlap (text : Text) (csize ov : Int)
    (fuel : Nat) (htext : text ≠ []) (hcs : 0 < csize) (hov : 0 < ov) :
    chunk_text text csize ov fuel = none := by
  unfold chunk_text
  rw [if_neg (by push_neg; exact ⟨htext, by omega⟩)]
  refine chunk_text_loop_none text csize ov hov fuel 0 [] ?_
  have hpos : 0 < text.length := List.length_pos.mpr htext
  exact_mod_cast hpos

/-- Witness for C9: the divergence is concrete already on the two-character
text `ab` with chunk size 1 and overlap 1. -/
theorem chunk_text_diverges_witness : chunk_text ['a', 'b'] 1 1 30 = none :=
  chunk_text_diverges_for_positive_overlap ['a', 'b'] 1 1 30 (by decide)
    (by decide) (by decide)

/-- C10 counterexample: `sanitize_filename` on the input `./.` first finds
no `..` to remove, then removes the separator, re-introducing a `..` — the
returned name is exactly `..`, so the output is not free of `..`
sequences. -/
theorem sanitize_reintroduces_dotdot :
    sanitize_filename (some ['.', '/', '.']) = ['.', '.'] ∧
    hasDotDot (sanitize_filename (some ['.', '/', '.'])) = true := by decide

/-- Every character produced by the substitution step is in the allowed
class. -/
theorem sanitizeCore_all_allowed (f : Text) :
    (sanitizeCore f).all isAllowedFilenameChar = true := by
  unfold sanitizeCore
  rw [List.all_map]
  rw [List.all_eq_true]
  intro c _
  by_cases hc : isAllowedFilenameChar c = true
  · simp [hc]
  · simp only [Function.comp_apply]
    rw [if_neg hc]
    decide

/-- C10 (amended): `sanitize_filename` always returns a non-empty string
of ASCII letters, digits, dots, hyphens and underscores — in particular
free of path separators — and returns the fixed fallback `unknown_file`
for non-string input and for input whose sanitized core is empty.  The
output is not guaranteed free of `..` sequences: removing separators can
re-introduce one. -/
theorem sanitize_filename_safe (input : Option Text) :
    sanitize_filename input ≠ [] ∧
    (sanitize_filename input).all isAllowedFilenameChar = true ∧
    (sanitize_filename input).all (fun c => c ≠ '/' && c ≠ '\\') = true ∧
    (∀ f, input = some f → sanitizeCore f = [] →
      sanitize_filename input = "unknown_file".data) ∧
    sanitize_filename none = "unknown_file".data := by
  have hstep : sanitize_filename input ≠ [] ∧
      (sanitize_filename input).all isAllowedFilenameChar = true := by
    cases input with
    | none => exact ⟨by decide, by decide⟩
    | some f =>
      have hred : sanitize_filename (some f) =
          if sanitizeCore f = [] then "unknown_file".data else sanitizeCore f := rfl
      rw [hred]
      by_cases h4 : sanitizeCore f = []
      · rw [if_pos h4]
        exact ⟨by decide, by decide⟩
      · rw [if_neg h4]
        exact ⟨h4, sanitizeCore_all_allowed f⟩
  have hsep : (sanitize_filename input).all (fun c => c ≠ '/' && c ≠ '\\') = true := by
    rw [List.all_eq_true]
    intro c hc
    have hc2 := List.all_eq_true.mp hstep.2 c hc
    have h7 : c ≠ '/' := by intro heq; subst heq; revert hc2; decide
    have h8 : c ≠ '\\' := by intro heq; subst heq; revert hc2; decide
    simp [h7, h8]
  refine ⟨hstep.1, hstep.2, hsep, ?_, by decide⟩
  intro f hf h4
  subst hf
  have hred : sanitize_filename (some f) =
      if sanitizeCore f = [] then "unknown_file".data else sanitizeCore f := rfl
  rw [hred, if_pos h4]

/-- Witness for the amended C10 at the empty-string input. -/
theorem sanitize_filename_safe_witness :
    sanitize_filename (some []) = "unknown_file".data :=
  (sanitize_filename_safe (some [])).2.2.2.1 [] rfl rfl

end ChatBoot
